import Mathlib

/-!
Verification of the CV-row skin-weight computation and the scene-graph
helper logic of the `matrix` rigging toolkit (`ribbontools.py`,
`matrixconstrainttools.py`).

The weight assignments inlined in `Ribbon.skin_duo_drivers` and
`Ribbon.skin_to_drivers` are embedded as pure functions over ℚ (exact
rational arithmetic; the Python float literal `.333` is embedded as the
rational `333/1000`).  The stateful helpers of `matrixconstrainttools.py`
are embedded as explicit state-passing functions over lists of node and
attribute names.
-/

namespace RibbonTools

/-- Weight pair assigned to CV row `i` by `Ribbon.skin_duo_drivers`
(ribbontools.py lines 345-372): `cvrows = spans + 3`, `frac = 1.0/spans`,
`thrdFrac = .333 * frac`, then the if/elif chain on `i`. -/
def skin_duo_weight (spans i : ℕ) : ℚ × ℚ :=
  let cvrows := spans + 3
  let frac : ℚ := 1 / (spans : ℚ)
  let thrdFrac : ℚ := 333 / 1000 * frac
  if i = 0 then (1, 0)
  else if i = 1 then (1 - thrdFrac, thrdFrac)
  else if i = cvrows - 2 then (thrdFrac, 1 - thrdFrac)
  else if i = cvrows - 1 then (0, 1)
  else (1 - ((i : ℚ) - 1) * frac, ((i : ℚ) - 1) * frac)

/-- Number of CV rows handled for segment `n` in `Ribbon.skin_to_drivers`
(ribbontools.py lines 411-418): `spansPer = jointNum - 1`; note the source
really tests `n == self.driverJointNum` (not `driverJointNum - 2`) in the
second branch. -/
def skin_to_cvrows (jointNum driverJointNum n : ℕ) : ℕ :=
  let spansPer := jointNum - 1
  if n = 0 ∧ driverJointNum = 2 then spansPer + 3
  else if (n = 0 ∧ 3 ≤ driverJointNum) ∨ (n = driverJointNum ∧ 3 ≤ driverJointNum) then
    spansPer + 2
  else spansPer + 1

/-- Weight pair assigned to CV row `i` of segment `n` by
`Ribbon.skin_to_drivers` (ribbontools.py lines 398-439):
`spans = (jointNum-1)*(driverJointNum-1)`, `frac = 1.0/spans`,
`thrdFrac = .333 * frac`, and the if/elif chain whose damped branches are
guarded by `n == 0` resp. `n == driverJointNum - 2`. -/
def skin_to_weight (jointNum driverJointNum n i : ℕ) : ℚ × ℚ :=
  let spans := (jointNum - 1) * (driverJointNum - 1)
  let frac : ℚ := 1 / (spans : ℚ)
  let thrdFrac : ℚ := 333 / 1000 * frac
  let cvrows := skin_to_cvrows jointNum driverJointNum n
  if i = 0 then (1, 0)
  else if i = 1 ∧ n = 0 then (1 - thrdFrac, thrdFrac)
  else if i = cvrows - 2 ∧ n = driverJointNum - 2 then (thrdFrac, 1 - thrdFrac)
  else if i = cvrows - 1 then (0, 1)
  else (1 - ((i : ℚ) - 1) * frac, ((i : ℚ) - 1) * frac)

/-- Common abstraction of both weight chains: a row-weight table with a
given row count, linear step `frac`, damped step `thrdFrac`, and flags
telling whether the first/last transition rows are damped. -/
def row_weight (cvrows : ℕ) (frac thrdFrac : ℚ) (dampFirst dampLast : Bool)
    (i : ℕ) : ℚ × ℚ :=
  if i = 0 then (1, 0)
  else if i = 1 ∧ dampFirst then (1 - thrdFrac, thrdFrac)
  else if i = cvrows - 2 ∧ dampLast then (thrdFrac, 1 - thrdFrac)
  else if i = cvrows - 1 then (0, 1)
  else (1 - ((i : ℚ) - 1) * frac, ((i : ℚ) - 1) * frac)

end RibbonTools

namespace MatrixTools

/-- Suffix constants of matrixconstrainttools.py (lines 43-64). -/
def POS : String := "_pos"

def ROT : String := "_rot"

def SCL : String := "_scale"

def GRP : String := "_grp"

def BC : String := "_bc"

def RIV : String := "_riv"

def POS_ATTR : String := ".translate"

def ROT_ATTR : String := ".rotate"

def SCL_ATTR : String := ".scale"

def OUT : String := ".output"

/-- State of a `Matrix` instance: its `drivers` and `driven` lists
(matrixconstrainttools.py lines 67-71). -/
structure MatrixSt where
  drivers : List String
  driven : List String
deriving DecidableEq

/-- One iteration of the selection-sorting loop of
`Matrix.get_driver_driven` (lines 84-97), at 1-based position `i` of
`total` selected objects.  The `objectType` test of the source guards a
bare `pass` and so has no effect; the `set(...)` conversions only serve
membership tests, which list membership models. -/
def get_driver_driven_step (total : ℕ) (acc : List String × List String)
    (p : ℕ × String) : List String × List String :=
  let drivers := acc.1
  let driven := acc.2
  let i := p.1
  let obj := p.2
  if i = total ∧ driven.length = 0 then (drivers, driven ++ [obj])
  else if ¬ obj ∈ drivers ∧ ¬ obj ∈ driven then (drivers ++ [obj], driven)
  else (drivers, driven)

/-- `Matrix.get_driver_driven` (lines 73-99) as a state transformer: the
current selection `objs` is the implicit input; returns the new state and
either the returned pair `(drivers, driven[0])` or the raised host
error.  The guard is the source's
`if not len(objs) >= 2 and len(self.driven) == 0`. -/
def get_driver_driven (st : MatrixSt) (objs : List String) :
    MatrixSt × Except String (List String × String) :=
  if ¬ objs.length ≥ 2 ∧ st.driven.length = 0 then
    (st, Except.error "Please select your driver objects and a driven object")
  else
    let r := (objs.enumFrom 1).foldl (get_driver_driven_step objs.length)
      (st.drivers, st.driven)
    match r.2.head? with
    | some d => (⟨r.1, r.2⟩, Except.ok (r.1, d))
    | none => (⟨r.1, r.2⟩, Except.error "IndexError: list index out of range")

/-- The three attribute kinds `Constraint.set_constraint` is invoked with
(`POS`, `ROT`, `SCL`; every call site passes a sublist of these
literals). -/
inductive CAttr
  | pos
  | rot
  | scl
deriving DecidableEq

/-- The `(mtrxAttr, drivenAttr)` pair selected for one `attr` by the
connection loop of `Constraint.set_constraint` (lines 276-293); `dec` and
`q2e` are the decomposeMatrix and quatToEuler node names. -/
def constraint_attrs (dec q2e driven : String) : CAttr → String × String
  | .pos => (dec ++ ".outputTranslate", driven ++ POS_ATTR)
  | .rot => (q2e ++ ".outputRotate", driven ++ ROT_ATTR)
  | .scl => (dec ++ ".outputScale", driven ++ SCL_ATTR)

/-- The connection loop of `Constraint.set_constraint` (lines 276-300):
`incoming` is the set of attributes that currently have an incoming
connection (`mc.connectionInfo(..., id=1)`).  Returns the list of
connections made (source attr, target attr) and the warning message of
the early `return mc.warning(...)` if one fired. -/
def set_constraint_connect (dec q2e driven : String) (incoming : List String) :
    List CAttr → List (String × String) × Option String
  | [] => ([], none)
  | attr :: rest =>
    let pr := constraint_attrs dec q2e driven attr
    if pr.2 ∈ incoming then
      ([], some (pr.2 ++ " is already receiving an incoming connection."))
    else
      let r := set_constraint_connect dec q2e driven (pr.2 :: incoming) rest
      (pr :: r.1, r.2)

/-- `mc.objExists` against a scene modelled as the list of existing node
names. -/
def objExists (scene : List String) (nm : String) : Bool := decide (nm ∈ scene)

/-- Node names created by `Matrix.mk_parent_grp` (lines 101-111): the
transform `obj_grp` is created by `mc.createNode` with no existence
check. -/
def mk_parent_grp_creates (obj : String) : List String := [obj ++ GRP]

/-- Node names created by `Matrix.mk_decomposition` (lines 154-162):
`obj_decM` is created only when `mc.objExists` says it is absent. -/
def mk_decomposition_creates (scene : List String) (obj : String) : List String :=
  if objExists scene (obj ++ "_decM") then [] else [obj ++ "_decM"]

/-- Node names created by `Constraint.mk_blend` (lines 166-177): guarded
by an early return when the blend node exists. -/
def mk_blend_creates (scene : List String) (driven : String) : List String :=
  if objExists scene (driven ++ "_blend") then [] else [driven ++ "_blend"]

/-- Node names created by `Constraint.mk_switch` (lines 195-206): guarded
by an early return when the switch node exists. -/
def mk_switch_creates (scene : List String) (driven : String) : List String :=
  if objExists scene (driven ++ "_switch") then [] else [driven ++ "_switch"]

/-- Node names created by `BlendColor.mk_bc` (lines 340-348): guarded by
an `objExists` check. -/
def mk_bc_creates (scene : List String) (driven attr : String) : List String :=
  if objExists scene (driven ++ attr ++ BC) then [] else [driven ++ attr ++ BC]

/-- Node names created by the group-creation line of `Rivet.set_rivets`
(lines 568-570): `mc.createNode("transform", n=driver_riv_grp)` with no
existence check. -/
def set_rivets_grp_creates (driver : String) : List String :=
  [driver ++ RIV ++ GRP]

/-- Does replaying a list of created names against the scene issue a
create call for a name already present? -/
def creates_existing (scene : List String) (creates : List String) : Bool :=
  creates.any (objExists scene)

/-- `BlendColor.mk_bc`'s node name (line 344): `driven + attr + "_bc"`. -/
def mk_bc_name (driven attr : String) : String := driven ++ attr ++ BC

/-- Python's `bc[len(bc) - 6]` (lines 361 and 379): the sixth character
from the end of the node name (these names are ASCII, one char per code
point). -/
def bc_sixth_from_end (bc : String) : Char := bc.data.getD (bc.data.length - 6) ' '

/-- Output-attribute selection of `BlendColor.conn_matrix` (lines
361-369).  The source uses three independent `if` statements assigning
`mAttr`; at most one can match, and when none matches `mAttr` is left
unbound (a NameError on use), modelled as `none`. -/
def conn_matrix_attr (bc : String) : Option String :=
  let char := bc_sixth_from_end bc
  if char = 'p' then some ".outputTranslate"
  else if char = 'r' then some ".outputRotate"
  else if char = 's' then some ".outputScale"
  else none

/-- Input-attribute selection of `BlendColor.conn_bc` (lines 379-387),
with the same unbound-variable behaviour modelled as `none`. -/
def conn_bc_attr (bc : String) : Option String :=
  let char := bc_sixth_from_end bc
  if char = 'p' then some POS_ATTR
  else if char = 'r' then some ROT_ATTR
  else if char = 's' then some SCL_ATTR
  else none

/-- `BlendColor.conn_matrix` (lines 355-373): for the `i`-th
decomposeMatrix node (1-based, `enumerate(mtrx, 1)`) connect its selected
output to `bc.color{i}`.  When the selection is unbound the first loop
iteration raises before any connection is made. -/
def conn_matrix (bc : String) (i : ℕ) :
    List String → List (String × String) × Option String
  | [] => ([], none)
  | m :: rest =>
    match conn_matrix_attr bc with
    | none => ([], some "NameError: mAttr referenced before assignment")
    | some mAttr =>
      let r := conn_matrix bc (i + 1) rest
      ((m ++ mAttr, bc ++ ".color" ++ toString i) :: r.1, r.2)

/-- `BlendColor.conn_bc` (lines 375-391): connect `bc.output` to the
selected attribute of the driven object, or raise when the selection is
unbound. -/
def conn_bc (driven bc : String) : List (String × String) × Option String :=
  match conn_bc_attr bc with
  | none => ([], some "NameError: dAttr referenced before assignment")
  | some dAttr => ([(bc ++ OUT, driven ++ dAttr)], none)

/-- The wiring phase of `BlendColor.set_constraint` for one blendColor
node (lines 421-424): `conn_matrix(mtrxList, bc)` then `conn_bc(bc)`,
stopping at the first raised error. -/
def conn_phase (driven : String) (mtrxs : List String) (bc : String) :
    List (String × String) × Option String :=
  let r1 := conn_matrix bc 1 mtrxs
  match r1.2 with
  | some e => (r1.1, some e)
  | none =>
    let r2 := conn_bc driven bc
    (r1.1 ++ r2.1, r2.2)

end MatrixTools

namespace RibbonTools

theorem skin_duo_weight_eq_row_weight (spans i : ℕ) :
    skin_duo_weight spans i =
      row_weight (spans + 3) (1 / (spans : ℚ)) (333 / 1000 * (1 / (spans : ℚ)))
        true true i := by
  simp [skin_duo_weight, row_weight]

theorem skin_to_weight_eq_row_weight (jointNum driverJointNum n i : ℕ) :
    skin_to_weight jointNum driverJointNum n i =
      row_weight (skin_to_cvrows jointNum driverJointNum n)
        (1 / (((jointNum - 1) * (driverJointNum - 1) : ℕ) : ℚ))
        (333 / 1000 * (1 / (((jointNum - 1) * (driverJointNum - 1) : ℕ) : ℚ)))
        (decide (n = 0)) (decide (n = driverJointNum - 2)) i := by
  simp [skin_to_weight, row_weight]

theorem row_weight_sum (cvrows : ℕ) (frac thrdFrac : ℚ) (dampFirst dampLast : Bool)
    (i : ℕ) :
    (row_weight cvrows frac thrdFrac dampFirst dampLast i).1 +
      (row_weight cvrows frac thrdFrac dampFirst dampLast i).2 = 1 := by
  unfold row_weight
  split_ifs <;> simp

theorem row_weight_zero (cvrows : ℕ) (frac t : ℚ) (df dl : Bool) :
    row_weight cvrows frac t df dl 0 = (1, 0) := by
  simp [row_weight]

theorem row_weight_last (cvrows : ℕ) (frac t : ℚ) (df dl : Bool) (hc : 3 ≤ cvrows) :
    row_weight cvrows frac t df dl (cvrows - 1) = (0, 1) := by
  unfold row_weight
  rw [if_neg (by omega), if_neg (fun h => absurd h.1 (by omega)),
    if_neg (fun h => absurd h.1 (by omega)), if_pos rfl]

theorem row_weight_one_damped (cvrows : ℕ) (frac t : ℚ) (dl : Bool) :
    row_weight cvrows frac t true dl 1 = (1 - t, t) := by
  simp [row_weight]

theorem row_weight_second_last (cvrows : ℕ) (frac t : ℚ) (df : Bool)
    (h2 : cvrows - 2 ≠ 0) (hb : ¬(cvrows - 2 = 1 ∧ df = true)) :
    row_weight cvrows frac t df true (cvrows - 2) = (t, 1 - t) := by
  unfold row_weight
  rw [if_neg h2, if_neg hb, if_pos ⟨rfl, rfl⟩]

theorem row_weight_interior (cvrows : ℕ) (frac t : ℚ) (df dl : Bool) (i : ℕ)
    (hi2 : 2 ≤ i) (hne2 : ¬(i = cvrows - 2 ∧ dl = true)) (hne3 : i ≠ cvrows - 1) :
    row_weight cvrows frac t df dl i =
      (1 - ((i : ℚ) - 1) * frac, ((i : ℚ) - 1) * frac) := by
  unfold row_weight
  rw [if_neg (by omega), if_neg (fun h => absurd h.1 (by omega)), if_neg hne2,
    if_neg hne3]

theorem row_weight_tip_eq (cvrows : ℕ) (frac t : ℚ) (df dl : Bool) (i : ℕ) :
    (row_weight cvrows frac t df dl i).2 = 1 - (row_weight cvrows frac t df dl i).1 := by
  have h := row_weight_sum cvrows frac t df dl i
  linarith

set_option maxHeartbeats 1000000 in
theorem row_weight_base_step (cvrows : ℕ) (frac t : ℚ) (df dl : Bool)
    (h0 : 0 ≤ t) (h1 : t ≤ frac) (h2 : frac ≤ 1) (h3 : t + t ≤ 1)
    (h4 : ((cvrows : ℚ) - 3) * frac ≤ 1)
    (i : ℕ) (hi : i + 1 < cvrows) :
    (row_weight cvrows frac t df dl (i + 1)).1 ≤
      (row_weight cvrows frac t df dl i).1 := by
  have hf0 : 0 ≤ frac := h0.trans h1
  cases df <;> cases dl <;>
    (unfold row_weight
     simp only [Bool.false_eq_true, and_false, and_true, eq_self_iff_true,
       if_false, if_true, ite_false, ite_true]
     split_ifs <;>
       first
         | exact (False.elim (by assumption))
         | (exfalso; omega)
         | (try (have hi0 : i = 0 := by omega
                 subst hi0)
            try (have hi1 : i = 1 := by omega
                 subst hi1)
            try (have hc2 : cvrows = i + 2 := by omega
                 subst hc2)
            try (have hc3 : cvrows = i + 3 := by omega
                 subst hc3)
            dsimp only
            push_cast at h4 ⊢
            linarith [h0, h1, h2, h3, hf0, h4]))

theorem row_weight_base_mono (cvrows : ℕ) (frac t : ℚ) (df dl : Bool)
    (h0 : 0 ≤ t) (h1 : t ≤ frac) (h2 : frac ≤ 1) (h3 : t + t ≤ 1)
    (h4 : ((cvrows : ℚ) - 3) * frac ≤ 1)
    (i j : ℕ) (hij : i ≤ j) (hj : j < cvrows) :
    (row_weight cvrows frac t df dl j).1 ≤ (row_weight cvrows frac t df dl i).1 := by
  revert hj
  induction j, hij using Nat.le_induction with
  | base => intro _; exact le_refl _
  | succ k hk ih =>
    intro hj
    exact le_trans (row_weight_base_step cvrows frac t df dl h0 h1 h2 h3 h4 k hj)
      (ih (by omega))

theorem weight_hyp_pack (s cvrows : ℕ) (hs : 2 ≤ s) (hc : cvrows ≤ s + 3) :
    0 ≤ 333 / 1000 * (1 / (s : ℚ)) ∧
    333 / 1000 * (1 / (s : ℚ)) ≤ 1 / (s : ℚ) ∧
    1 / (s : ℚ) ≤ 1 ∧
    333 / 1000 * (1 / (s : ℚ)) + 333 / 1000 * (1 / (s : ℚ)) ≤ 1 ∧
    ((cvrows : ℚ) - 3) * (1 / (s : ℚ)) ≤ 1 := by
  have hsq : (2 : ℚ) ≤ (s : ℚ) := by exact_mod_cast hs
  have hs0 : (0 : ℚ) < (s : ℚ) := by linarith
  have hf : 0 < 1 / (s : ℚ) := by positivity
  have hf1 : 1 / (s : ℚ) ≤ 1 / 2 := by
    rw [div_le_div_iff hs0 (by norm_num)]
    linarith
  refine ⟨by positivity, ?_, ?_, ?_, ?_⟩
  · nlinarith [hf]
  · linarith [hf1]
  · nlinarith [hf, hf1]
  · have hcq : (cvrows : ℚ) ≤ (s : ℚ) + 3 := by exact_mod_cast hc
    have hm : ((cvrows : ℚ) - 3) * (1 / (s : ℚ)) ≤ (s : ℚ) * (1 / (s : ℚ)) :=
      mul_le_mul_of_nonneg_right (by linarith) (le_of_lt hf)
    have hs1 : (s : ℚ) * (1 / (s : ℚ)) = 1 := by
      field_simp
    linarith

theorem skin_to_cvrows_facts (jointNum driverJointNum n : ℕ)
    (hj : 3 ≤ jointNum) (hd : 2 ≤ driverJointNum) :
    jointNum ≤ skin_to_cvrows jointNum driverJointNum n ∧
    skin_to_cvrows jointNum driverJointNum n ≤ jointNum + 2 ∧
    (n = 0 → jointNum + 1 ≤ skin_to_cvrows jointNum driverJointNum n) := by
  simp only [skin_to_cvrows]
  split_ifs <;> refine ⟨by omega, by omega, fun h0 => by omega⟩

theorem skin_to_spans_ge (jointNum driverJointNum : ℕ)
    (hj : 3 ≤ jointNum) (hd : 2 ≤ driverJointNum) :
    2 ≤ (jointNum - 1) * (driverJointNum - 1) := by
  have h1 : 2 ≤ jointNum - 1 := by omega
  have h2 : 1 ≤ driverJointNum - 1 := by omega
  calc 2 = 2 * 1 := by omega
    _ ≤ (jointNum - 1) * (driverJointNum - 1) := Nat.mul_le_mul h1 h2

theorem skin_to_cvrows_le (jointNum driverJointNum n : ℕ)
    (hj : 3 ≤ jointNum) (hd : 2 ≤ driverJointNum) :
    skin_to_cvrows jointNum driverJointNum n ≤
      (jointNum - 1) * (driverJointNum - 1) + 3 := by
  have h2 : 1 ≤ driverJointNum - 1 := by omega
  have h1 : (jointNum - 1) * 1 ≤ (jointNum - 1) * (driverJointNum - 1) :=
    Nat.mul_le_mul (le_refl (jointNum - 1)) h2
  rw [mul_one] at h1
  simp only [skin_to_cvrows]
  split_ifs <;> omega

end RibbonTools

/-- Claim C1.  Partition of unity: in both `skin_duo_drivers` (where
`cvrows = spans + 3`) and every segment of `skin_to_drivers`, the weight
pair assigned to every row index satisfies `w_base + w_tip = 1` in exact
rational arithmetic. -/
theorem C1_partition_of_unity (spans i jointNum driverJointNum n j : ℕ) :
    (RibbonTools.skin_duo_weight spans i).1 +
      (RibbonTools.skin_duo_weight spans i).2 = 1 ∧
    (RibbonTools.skin_to_weight jointNum driverJointNum n j).1 +
      (RibbonTools.skin_to_weight jointNum driverJointNum n j).2 = 1 := by
  constructor
  · rw [RibbonTools.skin_duo_weight_eq_row_weight]
    exact RibbonTools.row_weight_sum _ _ _ _ _ _
  · rw [RibbonTools.skin_to_weight_eq_row_weight]
    exact RibbonTools.row_weight_sum _ _ _ _ _ _

/-- Claim C2.  End pinning: row 0 gets `(1, 0)` and the last row
`cvrows - 1` gets `(0, 1)`, both in `skin_duo_drivers` (where
`cvrows = spans + 3`) and in every segment of `skin_to_drivers` (for valid
configurations `jointNum ≥ 3`, `driverJointNum ≥ 2`). -/
theorem C2_end_pinning (spans jointNum driverJointNum n : ℕ)
    (hj : 3 ≤ jointNum) (hd : 2 ≤ driverJointNum) :
    RibbonTools.skin_duo_weight spans 0 = (1, 0) ∧
    RibbonTools.skin_duo_weight spans (spans + 3 - 1) = (0, 1) ∧
    RibbonTools.skin_to_weight jointNum driverJointNum n 0 = (1, 0) ∧
    RibbonTools.skin_to_weight jointNum driverJointNum n
      (RibbonTools.skin_to_cvrows jointNum driverJointNum n - 1) = (0, 1) := by
  obtain ⟨hge, hle, h0c⟩ :=
    RibbonTools.skin_to_cvrows_facts jointNum driverJointNum n hj hd
  refine ⟨?_, ?_, ?_, ?_⟩
  · rw [RibbonTools.skin_duo_weight_eq_row_weight]
    exact RibbonTools.row_weight_zero _ _ _ _ _
  · rw [RibbonTools.skin_duo_weight_eq_row_weight]
    exact RibbonTools.row_weight_last _ _ _ _ _ (by omega)
  · rw [RibbonTools.skin_to_weight_eq_row_weight]
    exact RibbonTools.row_weight_zero _ _ _ _ _
  · rw [RibbonTools.skin_to_weight_eq_row_weight]
    exact RibbonTools.row_weight_last _ _ _ _ _ (by omega)

/-- Witness for C2 at `spans = 2`, `jointNum = 3`, `driverJointNum = 2`,
`n = 0`. -/
theorem C2_end_pinning_witness :
    RibbonTools.skin_duo_weight 2 0 = (1, 0) ∧
    RibbonTools.skin_duo_weight 2 (2 + 3 - 1) = (0, 1) ∧
    RibbonTools.skin_to_weight 3 2 0 0 = (1, 0) ∧
    RibbonTools.skin_to_weight 3 2 0
      (RibbonTools.skin_to_cvrows 3 2 0 - 1) = (0, 1) :=
  C2_end_pinning 2 3 2 0 (by norm_num) (by norm_num)

/-- Claim C3.  Interior rows (neither of the two first rows nor the two
last rows) get the plain linear interpolation
`(1 - (i-1)*frac, (i-1)*frac)` with `frac = 1/spans`, in both
`skin_duo_drivers` and every segment of `skin_to_drivers`. -/
theorem C3_interior_linear (spans jointNum driverJointNum n i : ℕ)
    (hi2 : 2 ≤ i) (hduo : i + 3 ≤ spans + 3)
    (hto : i + 3 ≤ RibbonTools.skin_to_cvrows jointNum driverJointNum n) :
    RibbonTools.skin_duo_weight spans i =
      (1 - ((i : ℚ) - 1) * (1 / (spans : ℚ)), ((i : ℚ) - 1) * (1 / (spans : ℚ))) ∧
    RibbonTools.skin_to_weight jointNum driverJointNum n i =
      (1 - ((i : ℚ) - 1) * (1 / (((jointNum - 1) * (driverJointNum - 1) : ℕ) : ℚ)),
        ((i : ℚ) - 1) * (1 / (((jointNum - 1) * (driverJointNum - 1) : ℕ) : ℚ))) := by
  constructor
  · rw [RibbonTools.skin_duo_weight_eq_row_weight]
    exact RibbonTools.row_weight_interior _ _ _ _ _ _ hi2
      (fun h => absurd h.1 (by omega)) (by omega)
  · rw [RibbonTools.skin_to_weight_eq_row_weight]
    exact RibbonTools.row_weight_interior _ _ _ _ _ _ hi2
      (fun h => absurd h.1 (by omega)) (by omega)

/-- Witness for C3 at `spans = 2`, `i = 2`, `jointNum = 4`,
`driverJointNum = 2`, `n = 0`. -/
theorem C3_interior_linear_witness :
    RibbonTools.skin_duo_weight 2 2 =
      (1 - ((2 : ℚ) - 1) * (1 / (2 : ℚ)), ((2 : ℚ) - 1) * (1 / (2 : ℚ))) ∧
    RibbonTools.skin_to_weight 4 2 0 2 =
      (1 - ((2 : ℚ) - 1) * (1 / (((4 - 1) * (2 - 1) : ℕ) : ℚ)),
        ((2 : ℚ) - 1) * (1 / (((4 - 1) * (2 - 1) : ℕ) : ℚ))) :=
  C3_interior_linear 2 4 2 0 2 (by norm_num) (by norm_num) (by decide)

/-- Counterexample for C4: at `spans = 2` the second row of
`skin_duo_drivers` is `(1 - 333/1000 * (1/2), 333/1000 * (1/2))`, not the
pair `(1 - (1/3)*(1/2), (1/3)*(1/2))` the claim demands with an exact
rational one third. -/
theorem C4_counterexample :
    RibbonTools.skin_duo_weight 2 1 ≠
      (1 - 1 / 3 * (1 / (2 : ℚ)), 1 / 3 * (1 / (2 : ℚ))) := by
  rw [RibbonTools.skin_duo_weight_eq_row_weight,
    RibbonTools.row_weight_one_damped]
  norm_num [Prod.ext_iff]

/-- Claim C4 (amended).  Damped transition rows: the second row gets
`(1 - 0.333*frac, 0.333*frac)` and the second-to-last row gets
`(0.333*frac, 1 - 0.333*frac)` where `0.333` is the source's literal
`.333` (embedded exactly as `333/1000`), not the exact rational one
third; in `skin_to_drivers` the damped second row belongs to segment
`n = 0` and the damped second-to-last row to the last segment
`n = driverJointNum - 2`. -/
theorem C4_damped_transition (spans jointNum driverJointNum n : ℕ)
    (hs : 1 ≤ spans) (hj : 3 ≤ jointNum) (hd : 2 ≤ driverJointNum)
    (hn : n = driverJointNum - 2) :
    RibbonTools.skin_duo_weight spans 1 =
      (1 - 333 / 1000 * (1 / (spans : ℚ)), 333 / 1000 * (1 / (spans : ℚ))) ∧
    RibbonTools.skin_duo_weight spans (spans + 3 - 2) =
      (333 / 1000 * (1 / (spans : ℚ)), 1 - 333 / 1000 * (1 / (spans : ℚ))) ∧
    RibbonTools.skin_to_weight jointNum driverJointNum 0 1 =
      (1 - 333 / 1000 * (1 / (((jointNum - 1) * (driverJointNum - 1) : ℕ) : ℚ)),
        333 / 1000 * (1 / (((jointNum - 1) * (driverJointNum - 1) : ℕ) : ℚ))) ∧
    RibbonTools.skin_to_weight jointNum driverJointNum n
        (RibbonTools.skin_to_cvrows jointNum driverJointNum n - 2) =
      (333 / 1000 * (1 / (((jointNum - 1) * (driverJointNum - 1) : ℕ) : ℚ)),
        1 - 333 / 1000 * (1 / (((jointNum - 1) * (driverJointNum - 1) : ℕ) : ℚ))) := by
  obtain ⟨hge, hle, h0c⟩ :=
    RibbonTools.skin_to_cvrows_facts jointNum driverJointNum n hj hd
  refine ⟨?_, ?_, ?_, ?_⟩
  · rw [RibbonTools.skin_duo_weight_eq_row_weight]
    exact RibbonTools.row_weight_one_damped _ _ _ _
  · rw [RibbonTools.skin_duo_weight_eq_row_weight]
    exact RibbonTools.row_weight_second_last _ _ _ _ (by omega)
      (fun h => absurd h.1 (by omega))
  · rw [RibbonTools.skin_to_weight_eq_row_weight]
    exact RibbonTools.row_weight_one_damped _ _ _ _
  · rw [RibbonTools.skin_to_weight_eq_row_weight]
    have hdl : decide (n = driverJointNum - 2) = true := decide_eq_true hn
    rw [hdl]
    exact RibbonTools.row_weight_second_last _ _ _ _ (by omega)
      (fun h => absurd h.1 (by
        have := h0c (of_decide_eq_true h.2)
        omega))

/-- Witness for C4 (amended) at `spans = 2`, `jointNum = 3`,
`driverJointNum = 2`, `n = 0`. -/
theorem C4_damped_transition_witness :
    RibbonTools.skin_duo_weight 2 1 =
      (1 - 333 / 1000 * (1 / (2 : ℚ)), 333 / 1000 * (1 / (2 : ℚ))) ∧
    RibbonTools.skin_duo_weight 2 (2 + 3 - 2) =
      (333 / 1000 * (1 / (2 : ℚ)), 1 - 333 / 1000 * (1 / (2 : ℚ))) ∧
    RibbonTools.skin_to_weight 3 2 0 1 =
      (1 - 333 / 1000 * (1 / (((3 - 1) * (2 - 1) : ℕ) : ℚ)),
        333 / 1000 * (1 / (((3 - 1) * (2 - 1) : ℕ) : ℚ))) ∧
    RibbonTools.skin_to_weight 3 2 0
        (RibbonTools.skin_to_cvrows 3 2 0 - 2) =
      (333 / 1000 * (1 / (((3 - 1) * (2 - 1) : ℕ) : ℚ)),
        1 - 333 / 1000 * (1 / (((3 - 1) * (2 - 1) : ℕ) : ℚ))) :=
  C4_damped_transition 2 3 2 0 (by norm_num) (by norm_num) (by norm_num) (by norm_num)

/-- Claim C5.  Monotonicity: as the row index grows, the base weight is
non-increasing and the tip weight non-decreasing, both in
`skin_duo_drivers` and within each segment of `skin_to_drivers`, for
valid configurations. -/
theorem C5_weights_monotonic (spans jointNum driverJointNum n i j : ℕ)
    (hs : 2 ≤ spans) (hj : 3 ≤ jointNum) (hd : 2 ≤ driverJointNum)
    (hij : i ≤ j) :
    (j < spans + 3 →
      (RibbonTools.skin_duo_weight spans j).1 ≤
        (RibbonTools.skin_duo_weight spans i).1 ∧
      (RibbonTools.skin_duo_weight spans i).2 ≤
        (RibbonTools.skin_duo_weight spans j).2) ∧
    (j < RibbonTools.skin_to_cvrows jointNum driverJointNum n →
      (RibbonTools.skin_to_weight jointNum driverJointNum n j).1 ≤
        (RibbonTools.skin_to_weight jointNum driverJointNum n i).1 ∧
      (RibbonTools.skin_to_weight jointNum driverJointNum n i).2 ≤
        (RibbonTools.skin_to_weight jointNum driverJointNum n j).2) := by
  constructor
  · intro hjlt
    obtain ⟨p0, p1, p2, p3, p4⟩ :=
      RibbonTools.weight_hyp_pack spans (spans + 3) hs (by omega)
    have hbase := RibbonTools.row_weight_base_mono (spans + 3) (1 / (spans : ℚ))
      (333 / 1000 * (1 / (spans : ℚ))) true true p0 p1 p2 p3 p4 i j hij hjlt
    constructor
    · rw [RibbonTools.skin_duo_weight_eq_row_weight,
        RibbonTools.skin_duo_weight_eq_row_weight]
      exact hbase
    · rw [RibbonTools.skin_duo_weight_eq_row_weight,
        RibbonTools.skin_duo_weight_eq_row_weight,
        RibbonTools.row_weight_tip_eq, RibbonTools.row_weight_tip_eq]
      linarith
  · intro hjlt
    obtain ⟨p0, p1, p2, p3, p4⟩ :=
      RibbonTools.weight_hyp_pack ((jointNum - 1) * (driverJointNum - 1))
        (RibbonTools.skin_to_cvrows jointNum driverJointNum n)
        (RibbonTools.skin_to_spans_ge jointNum driverJointNum hj hd)
        (RibbonTools.skin_to_cvrows_le jointNum driverJointNum n hj hd)
    have hbase := RibbonTools.row_weight_base_mono
      (RibbonTools.skin_to_cvrows jointNum driverJointNum n)
      (1 / (((jointNum - 1) * (driverJointNum - 1) : ℕ) : ℚ))
      (333 / 1000 * (1 / (((jointNum - 1) * (driverJointNum - 1) : ℕ) : ℚ)))
      (decide (n = 0)) (decide (n = driverJointNum - 2))
      p0 p1 p2 p3 p4 i j hij hjlt
    constructor
    · rw [RibbonTools.skin_to_weight_eq_row_weight,
        RibbonTools.skin_to_weight_eq_row_weight]
      exact hbase
    · rw [RibbonTools.skin_to_weight_eq_row_weight,
        RibbonTools.skin_to_weight_eq_row_weight,
        RibbonTools.row_weight_tip_eq, RibbonTools.row_weight_tip_eq]
      linarith

/-- Witness for C5 at `spans = 2`, `jointNum = 3`, `driverJointNum = 2`,
`n = 0`, rows `i = 0 ≤ j = 1`. -/
theorem C5_weights_monotonic_witness :
    (1 < 2 + 3 →
      (RibbonTools.skin_duo_weight 2 1).1 ≤ (RibbonTools.skin_duo_weight 2 0).1 ∧
      (RibbonTools.skin_duo_weight 2 0).2 ≤ (RibbonTools.skin_duo_weight 2 1).2) ∧
    (1 < RibbonTools.skin_to_cvrows 3 2 0 →
      (RibbonTools.skin_to_weight 3 2 0 1).1 ≤ (RibbonTools.skin_to_weight 3 2 0 0).1 ∧
      (RibbonTools.skin_to_weight 3 2 0 0).2 ≤ (RibbonTools.skin_to_weight 3 2 0 1).2) :=
  C5_weights_monotonic 2 3 2 0 0 1 (by norm_num) (by norm_num) (by norm_num) (by norm_num)

/-- Counterexample for C6: segments `n = 1` and `n = 2` of
`skin_to_drivers` with `jointNum = 3`, `driverJointNum = 4` handle the
same number of CV rows (same `cvrows`, same `spans`), yet row `i = 1`
receives different weight pairs, so the weights are not a function of
`(row_index, total_rows, spans)` alone. -/
theorem C6_counterexample :
    RibbonTools.skin_to_cvrows 3 4 1 = RibbonTools.skin_to_cvrows 3 4 2 ∧
    RibbonTools.skin_to_weight 3 4 1 1 ≠ RibbonTools.skin_to_weight 3 4 2 1 := by
  constructor
  · rfl
  · norm_num [RibbonTools.skin_to_weight, RibbonTools.skin_to_cvrows, Prod.ext_iff]

/-- Claim C6 (amended).  The weight pair computed by `skin_to_drivers`
depends only on the row index, the segment's row count, the global
`spans`, and the two segment flags `n = 0` (damped first transition) and
`n = driverJointNum - 2` (damped last transition): two segments agreeing
on all of those receive identical weights for every row. -/
theorem C6_context_independence (jointNum driverJointNum n1 n2 i : ℕ)
    (hc : RibbonTools.skin_to_cvrows jointNum driverJointNum n1 =
      RibbonTools.skin_to_cvrows jointNum driverJointNum n2)
    (h0 : n1 = 0 ↔ n2 = 0)
    (hl : n1 = driverJointNum - 2 ↔ n2 = driverJointNum - 2) :
    RibbonTools.skin_to_weight jointNum driverJointNum n1 i =
      RibbonTools.skin_to_weight jointNum driverJointNum n2 i := by
  rw [RibbonTools.skin_to_weight_eq_row_weight,
    RibbonTools.skin_to_weight_eq_row_weight, hc,
    show decide (n1 = 0) = decide (n2 = 0) from decide_eq_decide.mpr h0,
    show decide (n1 = driverJointNum - 2) = decide (n2 = driverJointNum - 2) from
      decide_eq_decide.mpr hl]

/-- Witness for C6 (amended): segments `n = 1` and `n = 2` with
`jointNum = 3`, `driverJointNum = 5` agree on `cvrows` and on both flags,
hence on the weights of row `1`. -/
theorem C6_context_independence_witness :
    RibbonTools.skin_to_weight 3 5 1 1 = RibbonTools.skin_to_weight 3 5 2 1 :=
  C6_context_independence 3 5 1 2 1 (by decide) (by decide) (by decide)

namespace MatrixTools

theorem getD_append_offset (l1 l2 : List Char) (n : ℕ) (d : Char) :
    (l1 ++ l2).getD (l1.length + n) d = l2.getD n d := by
  induction l1 with
  | nil => simp
  | cons a l ih =>
    simpa [List.getD_cons_succ, Nat.succ_add] using ih

theorem mk_bc_name_data (driven attr : String) :
    (mk_bc_name driven attr).data = driven.data ++ (attr.data ++ BC.data) := by
  simp [mk_bc_name, String.data_append]

theorem bc_sixth_scale (driven : String) :
    bc_sixth_from_end (mk_bc_name driven SCL) = 'a' := by
  have ht : SCL.data ++ BC.data =
      ['_', 's', 'c', 'a', 'l', 'e', '_', 'b', 'c'] := by decide
  unfold bc_sixth_from_end
  rw [mk_bc_name_data, ht, List.length_append]
  have h9 : (['_', 's', 'c', 'a', 'l', 'e', '_', 'b', 'c'] : List Char).length = 9 := rfl
  rw [h9]
  have h3 : driven.data.length + 9 - 6 = driven.data.length + 3 := by omega
  rw [h3, getD_append_offset]
  rfl

theorem bc_sixth_pos (driven : String) :
    bc_sixth_from_end (mk_bc_name driven POS) = 'p' := by
  have ht : POS.data ++ BC.data = ['_', 'p', 'o', 's', '_', 'b', 'c'] := by decide
  unfold bc_sixth_from_end
  rw [mk_bc_name_data, ht, List.length_append]
  have h7 : (['_', 'p', 'o', 's', '_', 'b', 'c'] : List Char).length = 7 := rfl
  rw [h7]
  have h1 : driven.data.length + 7 - 6 = driven.data.length + 1 := by omega
  rw [h1, getD_append_offset]
  rfl

theorem bc_sixth_rot (driven : String) :
    bc_sixth_from_end (mk_bc_name driven ROT) = 'r' := by
  have ht : ROT.data ++ BC.data = ['_', 'r', 'o', 't', '_', 'b', 'c'] := by decide
  unfold bc_sixth_from_end
  rw [mk_bc_name_data, ht, List.length_append]
  have h7 : (['_', 'r', 'o', 't', '_', 'b', 'c'] : List Char).length = 7 := rfl
  rw [h7]
  have h1 : driven.data.length + 7 - 6 = driven.data.length + 1 := by omega
  rw [h1, getD_append_offset]
  rfl

theorem set_constraint_connect_skips (dec q2e driven : String) (attrs : List CAttr) :
    ∀ (incoming : List String) (tgt : String), tgt ∈ incoming →
      tgt ∉ (set_constraint_connect dec q2e driven incoming attrs).1.map Prod.snd := by
  induction attrs with
  | nil =>
    intro incoming tgt hmem
    simp [set_constraint_connect]
  | cons head rest ih =>
    intro incoming tgt hmem
    simp only [set_constraint_connect]
    by_cases hh : (constraint_attrs dec q2e driven head).2 ∈ incoming
    · rw [if_pos hh]
      simp
    · rw [if_neg hh]
      intro hcon
      simp only [List.map_cons, List.mem_cons] at hcon
      rcases hcon with hcon | hcon
      · exact hh (hcon ▸ hmem)
      · exact ih ((constraint_attrs dec q2e driven head).2 :: incoming) tgt
          (List.mem_cons_of_mem _ hmem) hcon

theorem set_constraint_connect_warns (dec q2e driven : String) (attrs : List CAttr) :
    ∀ (incoming : List String),
      (∃ a ∈ attrs, (constraint_attrs dec q2e driven a).2 ∈ incoming) →
      ((set_constraint_connect dec q2e driven incoming attrs).2).isSome = true := by
  induction attrs with
  | nil =>
    rintro incoming ⟨a, ha, -⟩
    exact absurd ha (List.not_mem_nil a)
  | cons head rest ih =>
    rintro incoming ⟨a, ha, hmem⟩
    simp only [set_constraint_connect]
    by_cases hh : (constraint_attrs dec q2e driven head).2 ∈ incoming
    · rw [if_pos hh]
      rfl
    · rw [if_neg hh]
      apply ih
      rcases List.mem_cons.mp ha with rfl | hrest
      · exact absurd hmem hh
      · exact ⟨a, hrest, List.mem_cons_of_mem _ hmem⟩

theorem set_constraint_connect_all (dec q2e driven : String) (attrs : List CAttr) :
    ∀ (incoming : List String),
      attrs.Pairwise (fun a b => (constraint_attrs dec q2e driven a).2 ≠
        (constraint_attrs dec q2e driven b).2) →
      (∀ a ∈ attrs, (constraint_attrs dec q2e driven a).2 ∉ incoming) →
      set_constraint_connect dec q2e driven incoming attrs =
        (attrs.map (constraint_attrs dec q2e driven), none) := by
  induction attrs with
  | nil =>
    intro incoming _ _
    rfl
  | cons head rest ih =>
    intro incoming hpw hnone
    obtain ⟨hhead, hrest⟩ := List.pairwise_cons.mp hpw
    have hh : (constraint_attrs dec q2e driven head).2 ∉ incoming :=
      hnone head (List.mem_cons_self _ _)
    simp only [set_constraint_connect]
    rw [if_neg hh]
    have hr := ih ((constraint_attrs dec q2e driven head).2 :: incoming) hrest
      (fun a ha => by
        intro hcon
        rcases List.mem_cons.mp hcon with heq | hmem
        · exact hhead a ha heq.symm
        · exact hnone a (List.mem_cons_of_mem _ ha) hmem)
    rw [hr]
    rfl

theorem creates_existing_guard (scene : List String) (nm : String) :
    creates_existing scene (if objExists scene nm then [] else [nm]) = false := by
  by_cases h : objExists scene nm
  · rw [if_pos h]
    rfl
  · rw [if_neg h]
    simp only [Bool.not_eq_true] at h
    simp [creates_existing, h]

end MatrixTools

/-- Claim C7.  Wrong-selection-count error with atomicity: when fewer
than two objects are selected and the driven list is empty,
`Matrix.get_driver_driven` raises the host error synchronously and the
drivers/driven state is unchanged. -/
theorem C7_wrong_selection_error (st : MatrixTools.MatrixSt) (objs : List String)
    (h1 : objs.length < 2) (h2 : st.driven = []) :
    MatrixTools.get_driver_driven st objs =
      (st, Except.error "Please select your driver objects and a driven object") := by
  unfold MatrixTools.get_driver_driven
  rw [if_pos ⟨by omega, by simp [h2]⟩]

/-- Witness for C7: one selected object, empty driven list. -/
theorem C7_wrong_selection_error_witness :
    MatrixTools.get_driver_driven ⟨["a"], []⟩ ["b"] =
      (⟨["a"], []⟩, Except.error "Please select your driver objects and a driven object") :=
  C7_wrong_selection_error ⟨["a"], []⟩ ["b"] (by norm_num) rfl

/-- Counterexample for C8: driving `[POS, ROT]` with the translate
attribute already connected, the rotate attribute has no incoming
connection and yet no connection is made to it — the early
`return mc.warning(...)` aborts the whole loop, so "if it has no incoming
connection, the connection is made" fails for rotate. -/
theorem C8_counterexample :
    ("obj" ++ MatrixTools.ROT_ATTR) ∉ (["obj" ++ MatrixTools.POS_ATTR] : List String) ∧
    (MatrixTools.set_constraint_connect "dec" "q2e" "obj"
      ["obj" ++ MatrixTools.POS_ATTR]
      [MatrixTools.CAttr.pos, MatrixTools.CAttr.rot]).1 = [] ∧
    (MatrixTools.set_constraint_connect "dec" "q2e" "obj"
      ["obj" ++ MatrixTools.POS_ATTR]
      [MatrixTools.CAttr.pos, MatrixTools.CAttr.rot]).2 =
      some ("obj" ++ MatrixTools.POS_ATTR ++
        " is already receiving an incoming connection.") := by
  refine ⟨by decide, ?_, ?_⟩ <;> rfl

/-- Claim C8 (amended).  Already-connected warning: an attribute whose
target already has an incoming connection is never connected and a host
warning is surfaced; and when none of the targets is already connected
(and the targets are pairwise distinct, as at every call site) every
requested connection is made with no warning.  Because the warning is an
early `return`, attributes after the first already-connected one are
skipped even when they are free. -/
theorem C8_already_connected (dec q2e driven : String) (incoming : List String)
    (attrs : List MatrixTools.CAttr)
    (hpw : attrs.Pairwise (fun a b =>
      (MatrixTools.constraint_attrs dec q2e driven a).2 ≠
        (MatrixTools.constraint_attrs dec q2e driven b).2)) :
    (∀ a ∈ attrs, (MatrixTools.constraint_attrs dec q2e driven a).2 ∈ incoming →
      (MatrixTools.constraint_attrs dec q2e driven a).2 ∉
        (MatrixTools.set_constraint_connect dec q2e driven incoming attrs).1.map
          Prod.snd ∧
      (MatrixTools.set_constraint_connect dec q2e driven incoming attrs).2.isSome
        = true) ∧
    ((∀ a ∈ attrs, (MatrixTools.constraint_attrs dec q2e driven a).2 ∉ incoming) →
      MatrixTools.set_constraint_connect dec q2e driven incoming attrs =
        (attrs.map (MatrixTools.constraint_attrs dec q2e driven), none)) := by
  constructor
  · intro a ha hmem
    exact ⟨MatrixTools.set_constraint_connect_skips dec q2e driven attrs incoming _
        hmem,
      MatrixTools.set_constraint_connect_warns dec q2e driven attrs incoming
        ⟨a, ha, hmem⟩⟩
  · intro hnone
    exact MatrixTools.set_constraint_connect_all dec q2e driven attrs incoming
      hpw hnone

/-- Witness for C8 (amended) with translate already connected and
attrs `[POS, ROT]`. -/
theorem C8_already_connected_witness :
    (∀ a ∈ [MatrixTools.CAttr.pos, MatrixTools.CAttr.rot],
      (MatrixTools.constraint_attrs "dec" "q2e" "obj" a).2 ∈
        ["obj" ++ MatrixTools.POS_ATTR] →
      (MatrixTools.constraint_attrs "dec" "q2e" "obj" a).2 ∉
        (MatrixTools.set_constraint_connect "dec" "q2e" "obj"
          ["obj" ++ MatrixTools.POS_ATTR]
          [MatrixTools.CAttr.pos, MatrixTools.CAttr.rot]).1.map Prod.snd ∧
      (MatrixTools.set_constraint_connect "dec" "q2e" "obj"
        ["obj" ++ MatrixTools.POS_ATTR]
        [MatrixTools.CAttr.pos, MatrixTools.CAttr.rot]).2.isSome = true) ∧
    ((∀ a ∈ [MatrixTools.CAttr.pos, MatrixTools.CAttr.rot],
      (MatrixTools.constraint_attrs "dec" "q2e" "obj" a).2 ∉
        ["obj" ++ MatrixTools.POS_ATTR]) →
      MatrixTools.set_constraint_connect "dec" "q2e" "obj"
        ["obj" ++ MatrixTools.POS_ATTR]
        [MatrixTools.CAttr.pos, MatrixTools.CAttr.rot] =
        ([MatrixTools.CAttr.pos, MatrixTools.CAttr.rot].map
          (MatrixTools.constraint_attrs "dec" "q2e" "obj"), none)) :=
  C8_already_connected "dec" "q2e" "obj" ["obj" ++ MatrixTools.POS_ATTR]
    [MatrixTools.CAttr.pos, MatrixTools.CAttr.rot] (by decide)

/-- Counterexample for C9: `Matrix.mk_parent_grp` issues its
`mc.createNode` call for `A_grp` even against a scene in which `A_grp`
already exists — it performs no existence check, so "every node-creating
operation checks that no node of the target name exists" is false. -/
theorem C9_counterexample :
    MatrixTools.creates_existing ["A", "A" ++ MatrixTools.GRP]
      (MatrixTools.mk_parent_grp_creates "A") = true := by
  decide

/-- Claim C9 (amended).  The named-utility builders `mk_decomposition`,
`mk_blend`, `mk_switch` and `mk_bc` check `mc.objExists` immediately
before creating and so never issue a create call for an existing name,
but `mk_parent_grp` and the rivet-group creation in `set_rivets` create
their transform nodes unconditionally. -/
theorem C9_guarded_creation (scene : List String) (obj attr : String) :
    MatrixTools.creates_existing scene
      (MatrixTools.mk_decomposition_creates scene obj) = false ∧
    MatrixTools.creates_existing scene
      (MatrixTools.mk_blend_creates scene obj) = false ∧
    MatrixTools.creates_existing scene
      (MatrixTools.mk_switch_creates scene obj) = false ∧
    MatrixTools.creates_existing scene
      (MatrixTools.mk_bc_creates scene obj attr) = false ∧
    MatrixTools.mk_parent_grp_creates obj = [obj ++ MatrixTools.GRP] ∧
    MatrixTools.set_rivets_grp_creates obj =
      [obj ++ MatrixTools.RIV ++ MatrixTools.GRP] := by
  refine ⟨?_, ?_, ?_, ?_, rfl, rfl⟩
  · exact MatrixTools.creates_existing_guard scene (obj ++ "_decM")
  · exact MatrixTools.creates_existing_guard scene (obj ++ "_blend")
  · exact MatrixTools.creates_existing_guard scene (obj ++ "_switch")
  · exact MatrixTools.creates_existing_guard scene (obj ++ attr ++ MatrixTools.BC)

/-- Claim C10.  For every driven object name, the blendColor wiring of
`BlendColor.scale()` fails before making any of its connections: the bc
node is named with the `_scale_bc` suffix, the sixth character from the
end is 'a', no 'p'/'r'/'s' branch matches, and the attribute variable is
left unbound (`none`), so the `conn_matrix`/`conn_bc` phase raises with
an empty connection list; the `_pos_bc` and `_rot_bc` names of
`parent()`, `point()` and `orient()` always select a matching branch. -/
theorem C10_scale_blendcolor_fails (driven : String) (mtrxs : List String) :
    (MatrixTools.conn_phase driven mtrxs
      (MatrixTools.mk_bc_name driven MatrixTools.SCL)).1 = [] ∧
    (MatrixTools.conn_phase driven mtrxs
      (MatrixTools.mk_bc_name driven MatrixTools.SCL)).2.isSome = true ∧
    MatrixTools.conn_matrix_attr (MatrixTools.mk_bc_name driven MatrixTools.POS) =
      some ".outputTranslate" ∧
    MatrixTools.conn_matrix_attr (MatrixTools.mk_bc_name driven MatrixTools.ROT) =
      some ".outputRotate" ∧
    MatrixTools.conn_bc_attr (MatrixTools.mk_bc_name driven MatrixTools.POS) =
      some MatrixTools.POS_ATTR ∧
    MatrixTools.conn_bc_attr (MatrixTools.mk_bc_name driven MatrixTools.ROT) =
      some MatrixTools.ROT_ATTR := by
  have hmA : MatrixTools.conn_matrix_attr
      (MatrixTools.mk_bc_name driven MatrixTools.SCL) = none := by
    unfold MatrixTools.conn_matrix_attr
    rw [MatrixTools.bc_sixth_scale]
    rfl
  have hdA : MatrixTools.conn_bc_attr
      (MatrixTools.mk_bc_name driven MatrixTools.SCL) = none := by
    unfold MatrixTools.conn_bc_attr
    rw [MatrixTools.bc_sixth_scale]
    rfl
  refine ⟨?_, ?_, ?_, ?_, ?_, ?_⟩
  · cases mtrxs with
    | nil => simp [MatrixTools.conn_phase, MatrixTools.conn_matrix,
        MatrixTools.conn_bc, hdA]
    | cons m rest => simp [MatrixTools.conn_phase, MatrixTools.conn_matrix, hmA]
  · cases mtrxs with
    | nil => simp [MatrixTools.conn_phase, MatrixTools.conn_matrix,
        MatrixTools.conn_bc, hdA]
    | cons m rest => simp [MatrixTools.conn_phase, MatrixTools.conn_matrix, hmA]
  · unfold MatrixTools.conn_matrix_attr
    rw [MatrixTools.bc_sixth_pos]
    rfl
  · unfold MatrixTools.conn_matrix_attr
    rw [MatrixTools.bc_sixth_rot]
    rfl
  · unfold MatrixTools.conn_bc_attr
    rw [MatrixTools.bc_sixth_pos]
    rfl
  · unfold MatrixTools.conn_bc_attr
    rw [MatrixTools.bc_sixth_rot]
    rfl
